import Mathlib

/-
  Verification of the n8n MCP bridge (src/src/server.rs).

  The server exposes ~18 tools; each tool builds one HTTP request against a
  remote n8n instance and turns the response into a tool result.  We embed
  the request-building and response-handling logic shallowly: JSON values are
  an inductive type, the HTTP layer is a function from requests to outcomes,
  and each Rust tool method becomes a Lean function returning the list of
  requests it issued together with its tool result.
-/

namespace N8n

/-- JSON values, the shallow counterpart of serde_json::Value.  All numbers
occurring in the bridge are unsigned integers (u8 limits, u16 timeouts), so a
Nat payload suffices. -/
inductive Json where
  | null : Json
  | bool (b : Bool) : Json
  | num (n : Nat) : Json
  | str (s : String) : Json
  | arr (elems : List Json) : Json
  | obj (fields : List (String × Json)) : Json

/-- Hexadecimal digit character, for JSON control-character escapes. -/
def hexDigit (n : Nat) : Char :=
  if n < 10 then Char.ofNat (48 + n) else Char.ofNat (87 + n)

/-- Escape one character the way serde_json does when printing a string. -/
def escapeChar (c : Char) : String :=
  if c = '"' then "\\\""
  else if c = '\\' then "\\\\"
  else if c = '\x08' then "\\b"
  else if c = '\x0c' then "\\f"
  else if c = '\n' then "\\n"
  else if c = '\r' then "\\r"
  else if c = '\t' then "\\t"
  else if c.toNat < 32 then
    "\\u00" ++ String.singleton (hexDigit (c.toNat / 16)) ++
      String.singleton (hexDigit (c.toNat % 16))
  else String.singleton c

/-- Escape a whole string for JSON output. -/
def escapeString (s : String) : String :=
  String.join (s.toList.map escapeChar)

/-- A JSON string literal: quotes around the escaped payload. -/
def quoteJson (s : String) : String :=
  "\"" ++ escapeString s ++ "\""

/-- Two spaces of indentation per nesting level, as serde_json's pretty
printer uses. -/
def indent (lvl : Nat) : String :=
  String.mk (List.replicate (2 * lvl) ' ')

mutual

/-- Pretty-print a JSON value at a given indentation level, following
serde_json::to_string_pretty: two-space indent, empty containers printed
inline. -/
def prettyAux : Nat → Json → String
  | _, .null => "null"
  | _, .bool true => "true"
  | _, .bool false => "false"
  | _, .num n => toString n
  | _, .str s => quoteJson s
  | _, .arr [] => "[]"
  | lvl, .arr (x :: xs) =>
      "[\n" ++ String.intercalate ",\n" (prettyElems (lvl + 1) (x :: xs)) ++
        "\n" ++ indent lvl ++ "]"
  | _, .obj [] => "\x7b\x7d"
  | lvl, .obj (f :: fs) =>
      "\x7b\n" ++ String.intercalate ",\n" (prettyFields (lvl + 1) (f :: fs)) ++
        "\n" ++ indent lvl ++ "\x7d"

/-- Pretty-print array elements, each on its own indented line. -/
def prettyElems : Nat → List Json → List String
  | _, [] => []
  | lvl, x :: xs => (indent lvl ++ prettyAux lvl x) :: prettyElems lvl xs

/-- Pretty-print object fields, each on its own indented line. -/
def prettyFields : Nat → List (String × Json) → List String
  | _, [] => []
  | lvl, (k, v) :: fs =>
      (indent lvl ++ quoteJson k ++ ": " ++ prettyAux lvl v) :: prettyFields lvl fs

end

/-- serde_json::to_string_pretty, as the bridge calls it on response bodies. -/
def to_string_pretty (j : Json) : String :=
  prettyAux 0 j

/-! ## HTTP model -/

/-- The HTTP verbs the bridge uses (reqwest's get/post/put/delete builders). -/
inductive Method where
  | get
  | post
  | put
  | delete
deriving DecidableEq

/-- One outbound HTTP request as the reqwest builder assembles it: verb, full
URL, the headers the client attaches, an optional query payload (from
`.query(..)`) and an optional JSON body (from `.json(..)`). -/
structure Request where
  method : Method
  url : String
  headers : List (String × String)
  query : Option Json
  body : Option Json

/-- What `send().await` followed by `.json::<serde_json::Value>()` can observe:
either the send itself failed (reqwest::Error — connection refused, DNS, TLS,
timeout), or a response arrived whose body either parses as JSON (`some v`) or
does not (`Option.none`). -/
inductive SendResult where
  | success (body : Option Json)
  | failure (err : String)

/-- The remote service, as the bridge sees it: a mapping from the single
request issued to what comes back. -/
def Remote := Request → SendResult

/-- rmcp's CallToolResult: an error flag plus text content blocks. -/
structure CallToolResult where
  isError : Bool
  content : List String
deriving DecidableEq

/-- CallToolResult::success - the isError flag is false. -/
def CallToolResult.success (texts : List String) : CallToolResult :=
  { isError := false, content := texts }

/-- CallToolResult::error - the isError flag is true. -/
def CallToolResult.mkError (texts : List String) : CallToolResult :=
  { isError := true, content := texts }

/-- The observable outcome of a tool method whose Rust type is
Result<CallToolResult, McpError>: a returned Ok value, a returned Err
(protocol-level fault — no tool body ever constructs one), or a panic from
an unwrap. -/
inductive ToolReturn where
  | ok (result : CallToolResult)
  | mcpErr
  | panic
deriving DecidableEq

/-! ## Server construction -/

/-- The Server struct of the bridge.  The reqwest client is represented by
the API key it carries in its default headers; base_url, n8n_user and
n8n_password are the remaining fields. -/
structure Server where
  api_key : String
  base_url : String
  n8n_user : Option String
  n8n_password : Option String

/-- A process environment: variable name to optional value, the shape of
std::env::var up to the error detail. -/
def Env := String → Option String

/-- Server::from_env.  The two `.expect(..)` calls panic (abort startup,
modelled as Option.none) when N8N_API_KEY or N8N_BASE_URL is absent; the
optional credentials are read with `.ok()`.  The API key is installed in the
client's default header map under X-N8N-API-KEY. -/
def Server.from_env (env : Env) : Option Server :=
  match env "N8N_API_KEY", env "N8N_BASE_URL" with
  | some api_key, some base_url =>
      some { api_key := api_key, base_url := base_url,
             n8n_user := env "N8N_USER", n8n_password := env "N8N_PASSWORD" }
  | _, _ => Option.none

/-- The default header map the constructed client attaches to every request. -/
def Server.default_headers (s : Server) : List (String × String) :=
  [("X-N8N-API-KEY", s.api_key)]

/-- Assemble one request through the client: the default headers ride along. -/
def Server.mkRequest (s : Server) (m : Method) (url : String)
    (query body : Option Json) : Request :=
  { method := m, url := url, headers := s.default_headers,
    query := query, body := body }

/-! ## serde data model -/

/-- The AllOrNone enum.  Its serde attributes are `rename = "snake_case"`
(a container rename, not rename_all) and `untagged`; All is the default. -/
inductive AllOrNone where
  | All
  | None
deriving DecidableEq

/-- Rust Default for AllOrNone: the #[default] variant All. -/
def AllOrNone.default : AllOrNone := AllOrNone.All

/-- serde serialization of AllOrNone: an untagged enum serializes a unit
variant as JSON null (untagged unit variants carry no tag and no payload), so
both variants serialize to null. -/
def AllOrNone.serialize : AllOrNone → Json
  | .All => Json.null
  | .None => Json.null

/-- The Display impl of AllOrNone, which writes the lowercase wire words. -/
def AllOrNone.display : AllOrNone → String
  | .All => "all"
  | .None => "none"

/-- The ExecutionStatus enum: serde `rename = "camelCase"` (container rename)
plus `untagged`. -/
inductive ExecutionStatus where
  | Error
  | Success
  | Waiting
deriving DecidableEq

/-- serde serialization of ExecutionStatus: untagged unit variants all
serialize to JSON null. -/
def ExecutionStatus.serialize : ExecutionStatus → Json
  | .Error => Json.null
  | .Success => Json.null
  | .Waiting => Json.null

/-- WorkflowSettings: serde attribute is `rename = "camelCase"`, a container
rename that does NOT rename fields, so the serialized field names stay
snake_case.  execution_timeout is a u16. -/
structure WorkflowSettings where
  save_execution_progress : Bool
  save_manual_executions : Bool
  save_data_error_execution : AllOrNone
  save_data_success_execution : AllOrNone
  execution_timeout : Nat
deriving DecidableEq

/-- Rust Default for WorkflowSettings: false booleans, default AllOrNone
(All), zero timeout. -/
def WorkflowSettings.default : WorkflowSettings :=
  { save_execution_progress := false
    save_manual_executions := false
    save_data_error_execution := AllOrNone.default
    save_data_success_execution := AllOrNone.default
    execution_timeout := 0 }

/-- serde serialization of WorkflowSettings: snake_case field names (the
container-level rename leaves fields untouched), enum fields through their
untagged serialization. -/
def WorkflowSettings.serialize (w : WorkflowSettings) : Json :=
  Json.obj
    [ ("save_execution_progress", Json.bool w.save_execution_progress)
    , ("save_manual_executions", Json.bool w.save_manual_executions)
    , ("save_data_error_execution", w.save_data_error_execution.serialize)
    , ("save_data_success_execution", w.save_data_success_execution.serialize)
    , ("execution_timeout", Json.num w.execution_timeout) ]

/-- Serialize an Option through a serializer for the payload; None becomes
JSON null, as serde does for Option fields. -/
def optJson (f : α → Json) : Option α → Json
  | some a => f a
  | Option.none => Json.null

/-- RetrieveAllWorkflowParams: the filter/pagination parameters of
retrieve_workflows; every field is optional (limit is a u8). -/
structure RetrieveAllWorkflowParams where
  active : Option Bool
  tags : Option String
  name : Option String
  project_id : Option String
  exclude_pinned_data : Option String
  limit : Option Nat
  cursor : Option String
deriving DecidableEq

/-- serde serialization of RetrieveAllWorkflowParams (query payload of
retrieve_workflows): snake_case field names since the container rename does
not touch fields. -/
def RetrieveAllWorkflowParams.serialize (p : RetrieveAllWorkflowParams) : Json :=
  Json.obj
    [ ("active", optJson Json.bool p.active)
    , ("tags", optJson Json.str p.tags)
    , ("name", optJson Json.str p.name)
    , ("project_id", optJson Json.str p.project_id)
    , ("exclude_pinned_data", optJson Json.str p.exclude_pinned_data)
    , ("limit", optJson Json.num p.limit)
    , ("cursor", optJson Json.str p.cursor) ]

/-- The Id struct used by update_workflow_tags_by_workflow_id. -/
structure Id where
  id : String
deriving DecidableEq

/-- serde serialization of Id. -/
def Id.serialize (i : Id) : Json :=
  Json.obj [("id", Json.str i.id)]

/-! ## Tool methods

Each Rust tool method becomes a function from the server, its parameters and
the remote to the list of requests it issued (always a singleton: every body
contains exactly one `.send()`) paired with its ToolReturn. -/

/-- The shared response tail of every JSON-returning tool: a failed send is
converted to an error CallToolResult with a "Workflow error: ..." line; a
response whose body is not JSON hits `.json().await.unwrap()` and panics; a
JSON body is pretty-printed into a success CallToolResult. -/
def handle_json_response (r : SendResult) : ToolReturn :=
  match r with
  | .failure err =>
      ToolReturn.ok (CallToolResult.mkError ["Workflow error: " ++ err])
  | .success Option.none => ToolReturn.panic
  | .success (some v) =>
      ToolReturn.ok (CallToolResult.success [to_string_pretty v])

/-- retrieve_all_executions: GET {base}/api/v1/executions with the six
parameters as a query payload.  Note limit and cursor are required (not
Option) parameters in the source. -/
def Server.retrieve_all_executions (s : Server) (include_data : Bool)
    (status : ExecutionStatus) (workflow_id : Option String)
    (project_id : Option String) (limit : Nat) (cursor : String)
    (remote : Remote) : List Request × ToolReturn :=
  let url := s.base_url ++ "/api/v1/executions"
  let json_object := Json.obj
    [ ("includeData", Json.bool include_data)
    , ("status", status.serialize)
    , ("workflowId", optJson Json.str workflow_id)
    , ("projectId", optJson Json.str project_id)
    , ("limit", Json.num limit)
    , ("cursor", Json.str cursor) ]
  let req := s.mkRequest Method.get url (some json_object) Option.none
  ([req], handle_json_response (remote req))

/-- retrieve_execution_by_id: the source formats the URL as
{base}/api/v1/workflows/{execution_id} — the workflows path, not the
executions path — and issues a GET. -/
def Server.retrieve_execution_by_id (s : Server) (execution_id : String)
    (remote : Remote) : List Request × ToolReturn :=
  let url := s.base_url ++ "/api/v1/workflows/" ++ execution_id
  let req := s.mkRequest Method.get url Option.none Option.none
  ([req], handle_json_response (remote req))

/-- delete_execution_by_id: likewise formats
{base}/api/v1/workflows/{execution_id} and issues a DELETE. -/
def Server.delete_execution_by_id (s : Server) (execution_id : String)
    (remote : Remote) : List Request × ToolReturn :=
  let url := s.base_url ++ "/api/v1/workflows/" ++ execution_id
  let req := s.mkRequest Method.delete url Option.none Option.none
  ([req], handle_json_response (remote req))

/-- create_workflow: POST {base}/api/v1/workflows with a body assembled from
the three caller parameters plus WorkflowSettings::default() under "settings"
and the literal string "null" under "staticData". -/
def Server.create_workflow (s : Server) (name : String)
    (nodes connections : Json) (remote : Remote) : List Request × ToolReturn :=
  let url := s.base_url ++ "/api/v1/workflows"
  let settings := WorkflowSettings.default
  let json_object := Json.obj
    [ ("name", Json.str name)
    , ("nodes", nodes)
    , ("connections", connections)
    , ("settings", settings.serialize)
    , ("staticData", Json.str "null") ]
  let req := s.mkRequest Method.post url Option.none (some json_object)
  ([req], handle_json_response (remote req))

/-- retrieve_workflows: GET {base}/api/v1/workflows with the serialized
RetrieveAllWorkflowParams as query payload. -/
def Server.retrieve_workflows (s : Server)
    (retrieve_workflow_params : RetrieveAllWorkflowParams)
    (remote : Remote) : List Request × ToolReturn :=
  let url := s.base_url ++ "/api/v1/workflows"
  let req := s.mkRequest Method.get url
    (some retrieve_workflow_params.serialize) Option.none
  ([req], handle_json_response (remote req))

/-- retrieve_workflow_by_id: GET {base}/api/v1/workflows/{workflow_id}. -/
def Server.retrieve_workflow_by_id (s : Server) (workflow_id : String)
    (remote : Remote) : List Request × ToolReturn :=
  let url := s.base_url ++ "/api/v1/workflows/" ++ workflow_id
  let req := s.mkRequest Method.get url Option.none Option.none
  ([req], handle_json_response (remote req))

/-- delete_workflow_by_id: DELETE {base}/api/v1/workflows/{workflow_id}. -/
def Server.delete_workflow_by_id (s : Server) (workflow_id : String)
    (remote : Remote) : List Request × ToolReturn :=
  let url := s.base_url ++ "/api/v1/workflows/" ++ workflow_id
  let req := s.mkRequest Method.delete url Option.none Option.none
  ([req], handle_json_response (remote req))

/-- activate_workflow_by_id: POST {base}/api/v1/workflows/{workflow_id}/activate. -/
def Server.activate_workflow_by_id (s : Server) (workflow_id : String)
    (remote : Remote) : List Request × ToolReturn :=
  let url := s.base_url ++ "/api/v1/workflows/" ++ workflow_id ++ "/activate"
  let req := s.mkRequest Method.post url Option.none Option.none
  ([req], handle_json_response (remote req))

/-- deactivate_workflow_by_id: POST {base}/api/v1/workflows/{workflow_id}/deactivate. -/
def Server.deactivate_workflow_by_id (s : Server) (workflow_id : String)
    (remote : Remote) : List Request × ToolReturn :=
  let url := s.base_url ++ "/api/v1/workflows/" ++ workflow_id ++ "/deactivate"
  let req := s.mkRequest Method.post url Option.none Option.none
  ([req], handle_json_response (remote req))

/-- update_workflow_by_id: PUT {base}/api/v1/workflows/{workflow_id} with the
same body shape as create_workflow (default settings, string "null"
staticData). -/
def Server.update_workflow_by_id (s : Server) (workflow_id : String)
    (name : String) (nodes connections : Json) (remote : Remote) :
    List Request × ToolReturn :=
  let url := s.base_url ++ "/api/v1/workflows/" ++ workflow_id
  let settings := WorkflowSettings.default
  let json_object := Json.obj
    [ ("name", Json.str name)
    , ("nodes", nodes)
    , ("connections", connections)
    , ("settings", settings.serialize)
    , ("staticData", Json.str "null") ]
  let req := s.mkRequest Method.put url Option.none (some json_object)
  ([req], handle_json_response (remote req))

/-- get_workflow_tags_by_workflow_id: GET
{base}/api/v1/workflows/{workflow_id}/tags. -/
def Server.get_workflow_tags_by_workflow_id (s : Server) (workflow_id : String)
    (remote : Remote) : List Request × ToolReturn :=
  let url := s.base_url ++ "/api/v1/workflows/" ++ workflow_id ++ "/tags"
  let req := s.mkRequest Method.get url Option.none Option.none
  ([req], handle_json_response (remote req))

/-- update_workflow_tags_by_workflow_id: PUT
{base}/api/v1/workflows/{workflow_id}/tags with the tag id list as body. -/
def Server.update_workflow_tags_by_workflow_id (s : Server)
    (workflow_id : String) (tags : List Id) (remote : Remote) :
    List Request × ToolReturn :=
  let url := s.base_url ++ "/api/v1/workflows/" ++ workflow_id ++ "/tags"
  let req := s.mkRequest Method.put url Option.none
    (some (Json.arr (tags.map Id.serialize)))
  ([req], handle_json_response (remote req))

/-- run_workflow: {base}/webhook/{webhook_path}; POST with the data as JSON
body when data is Some, GET otherwise.  On a successful send it returns the
fixed text "Workflow run successful" without reading the response body; on a
failed send the usual "Workflow error: ..." line. -/
def Server.run_workflow (s : Server) (webhook_path : String)
    (data : Option Json) (remote : Remote) : List Request × ToolReturn :=
  let url := s.base_url ++ "/webhook/" ++ webhook_path
  let req :=
    match data with
    | some d => s.mkRequest Method.post url Option.none (some d)
    | Option.none => s.mkRequest Method.get url Option.none Option.none
  ([req],
    match remote req with
    | .success _ =>
        ToolReturn.ok (CallToolResult.success ["Workflow run successful"])
    | .failure err =>
        ToolReturn.ok (CallToolResult.mkError ["Workflow error: " ++ err]))

/-- create_tag: POST {base}/tags with body obj name. -/
def Server.create_tag (s : Server) (name : String) (remote : Remote) :
    List Request × ToolReturn :=
  let url := s.base_url ++ "/tags"
  let req := s.mkRequest Method.post url Option.none
    (some (Json.obj [("name", Json.str name)]))
  ([req], handle_json_response (remote req))

/-- retrieve_tags: the source issues a POST (not a GET) to {base}/tags with
the optional cursor as query payload. -/
def Server.retrieve_tags (s : Server) (cursor : Option String)
    (remote : Remote) : List Request × ToolReturn :=
  let url := s.base_url ++ "/tags"
  let req := s.mkRequest Method.post url
    (some (Json.obj [("cursor", optJson Json.str cursor)])) Option.none
  ([req], handle_json_response (remote req))

/-- retrieve_tag_by_id: GET {base}/tags/{tag_id}. -/
def Server.retrieve_tag_by_id (s : Server) (tag_id : String)
    (remote : Remote) : List Request × ToolReturn :=
  let url := s.base_url ++ "/tags/" ++ tag_id
  let req := s.mkRequest Method.get url Option.none Option.none
  ([req], handle_json_response (remote req))

/-- delete_tag_by_id: DELETE {base}/tags/{tag_id}. -/
def Server.delete_tag_by_id (s : Server) (tag_id : String)
    (remote : Remote) : List Request × ToolReturn :=
  let url := s.base_url ++ "/tags/" ++ tag_id
  let req := s.mkRequest Method.delete url Option.none Option.none
  ([req], handle_json_response (remote req))

/-- update_tag_by_id: PUT {base}/tags/{tag_id} with body obj name. -/
def Server.update_tag_by_id (s : Server) (tag_id : String) (name : String)
    (remote : Remote) : List Request × ToolReturn :=
  let url := s.base_url ++ "/tags/" ++ tag_id
  let req := s.mkRequest Method.put url Option.none
    (some (Json.obj [("name", Json.str name)]))
  ([req], handle_json_response (remote req))

/-! ## Argument deserialization

The protocol layer deserializes the incoming JSON argument object into the
tool's typed parameters before the body runs: a plain-typed Rust parameter is
a required field, an Option-typed one is optional.  We model that serde
deserialization for the three list-style tools. -/

/-- Field lookup in a JSON object's field list. -/
def jGet : List (String × Json) → String → Option Json
  | [], _ => Option.none
  | (k, v) :: fs, key => if k = key then some v else jGet fs key

/-- Deserialize a JSON string. -/
def asString : Json → Option String
  | .str s => some s
  | _ => Option.none

/-- Deserialize a JSON boolean. -/
def asBool : Json → Option Bool
  | .bool b => some b
  | _ => Option.none

/-- Deserialize a u8: a number no larger than 255. -/
def asU8 : Json → Option Nat
  | .num n => if n ≤ 255 then some n else Option.none
  | _ => Option.none

/-- serde deserialization of the untagged ExecutionStatus enum: an untagged
unit variant deserializes from JSON null, and the first variant that matches
wins, so null yields Error and everything else (including the wire strings)
is rejected. -/
def asExecutionStatus : Json → Option ExecutionStatus
  | .null => some ExecutionStatus.Error
  | _ => Option.none

/-- An Option-typed field: absent or null yields None; a present value must
deserialize. -/
def optField (fs : List (String × Json)) (key : String)
    (conv : Json → Option α) : Option (Option α) :=
  match jGet fs key with
  | Option.none => some Option.none
  | some Json.null => some Option.none
  | some v => (conv v).map some

/-- A required field: absent is a deserialization error. -/
def reqField (fs : List (String × Json)) (key : String)
    (conv : Json → Option α) : Option α :=
  match jGet fs key with
  | Option.none => Option.none
  | some v => conv v

/-- The typed parameters of retrieve_all_executions, with the requiredness
the Rust signature declares: include_data, status, limit and cursor are
required; workflow_id and project_id are optional. -/
structure RetrieveAllExecutionsArgs where
  include_data : Bool
  status : ExecutionStatus
  workflow_id : Option String
  project_id : Option String
  limit : Nat
  cursor : String
deriving DecidableEq

/-- Deserialize the argument object of retrieve_all_executions. -/
def deserializeRetrieveAllExecutionsArgs (j : Json) :
    Option RetrieveAllExecutionsArgs :=
  match j with
  | .obj fs => do
      let include_data ← reqField fs "include_data" asBool
      let status ← reqField fs "status" asExecutionStatus
      let workflow_id ← optField fs "workflow_id" asString
      let project_id ← optField fs "project_id" asString
      let limit ← reqField fs "limit" asU8
      let cursor ← reqField fs "cursor" asString
      some { include_data := include_data, status := status,
             workflow_id := workflow_id, project_id := project_id,
             limit := limit, cursor := cursor }
  | _ => Option.none

/-- Deserialize a RetrieveAllWorkflowParams object: every field, cursor and
limit included, is Option-typed and therefore optional. -/
def deserializeRetrieveAllWorkflowParams (j : Json) :
    Option RetrieveAllWorkflowParams :=
  match j with
  | .obj fs => do
      let active ← optField fs "active" asBool
      let tags ← optField fs "tags" asString
      let name ← optField fs "name" asString
      let project_id ← optField fs "project_id" asString
      let exclude_pinned_data ← optField fs "exclude_pinned_data" asString
      let limit ← optField fs "limit" asU8
      let cursor ← optField fs "cursor" asString
      some { active := active, tags := tags, name := name,
             project_id := project_id, exclude_pinned_data := exclude_pinned_data,
             limit := limit, cursor := cursor }
  | _ => Option.none

/-- The typed parameters of retrieve_tags: a single optional cursor and no
limit parameter at all. -/
structure RetrieveTagsArgs where
  cursor : Option String
deriving DecidableEq

/-- Deserialize the argument object of retrieve_tags. -/
def deserializeRetrieveTagsArgs (j : Json) : Option RetrieveTagsArgs :=
  match j with
  | .obj fs => do
      let cursor ← optField fs "cursor" asString
      some { cursor := cursor }
  | _ => Option.none

/-! ## Concrete fixtures used by closed theorems -/

/-- A concrete server for closed evaluations. -/
def sEx : Server :=
  { api_key := "test-key", base_url := "http://n8n.local",
    n8n_user := Option.none, n8n_password := Option.none }

/-- The response body of the specification's worked example. -/
def demoBody : Json :=
  Json.obj [("id", Json.str "42"), ("name", Json.str "demo")]

/-- A remote that answers every request with a JSON body v. -/
def jsonRemote (v : Json) : Remote :=
  fun _ => SendResult.success (some v)

/-- A remote whose response body is not valid JSON. -/
def nonJsonRemote : Remote :=
  fun _ => SendResult.success Option.none

/-- A remote that fails every send at the transport level. -/
def failRemote (msg : String) : Remote :=
  fun _ => SendResult.failure msg

/-- An environment with both required variables set. -/
def envFull : Env := fun v =>
  if v = "N8N_API_KEY" then some "test-key"
  else if v = "N8N_BASE_URL" then some "http://n8n.local"
  else Option.none

/-- An environment missing the API key. -/
def envNoKey : Env := fun v =>
  if v = "N8N_BASE_URL" then some "http://n8n.local" else Option.none

/-- An environment missing the base URL. -/
def envNoBase : Env := fun v =>
  if v = "N8N_API_KEY" then some "test-key" else Option.none

/-- Every request any tool of server s ever issues carries the
X-N8N-API-KEY header with s's API key (the client's default headers). -/
def AllRequestsCarryApiKey (s : Server) : Prop :=
  (∀ a st wi pi l c remote, ∀ r ∈ (s.retrieve_all_executions a st wi pi l c remote).fst,
    ("X-N8N-API-KEY", s.api_key) ∈ r.headers) ∧
  (∀ eid remote, ∀ r ∈ (s.retrieve_execution_by_id eid remote).fst,
    ("X-N8N-API-KEY", s.api_key) ∈ r.headers) ∧
  (∀ eid remote, ∀ r ∈ (s.delete_execution_by_id eid remote).fst,
    ("X-N8N-API-KEY", s.api_key) ∈ r.headers) ∧
  (∀ n nd cn remote, ∀ r ∈ (s.create_workflow n nd cn remote).fst,
    ("X-N8N-API-KEY", s.api_key) ∈ r.headers) ∧
  (∀ p remote, ∀ r ∈ (s.retrieve_workflows p remote).fst,
    ("X-N8N-API-KEY", s.api_key) ∈ r.headers) ∧
  (∀ wid remote, ∀ r ∈ (s.retrieve_workflow_by_id wid remote).fst,
    ("X-N8N-API-KEY", s.api_key) ∈ r.headers) ∧
  (∀ wid remote, ∀ r ∈ (s.delete_workflow_by_id wid remote).fst,
    ("X-N8N-API-KEY", s.api_key) ∈ r.headers) ∧
  (∀ wid remote, ∀ r ∈ (s.activate_workflow_by_id wid remote).fst,
    ("X-N8N-API-KEY", s.api_key) ∈ r.headers) ∧
  (∀ wid remote, ∀ r ∈ (s.deactivate_workflow_by_id wid remote).fst,
    ("X-N8N-API-KEY", s.api_key) ∈ r.headers) ∧
  (∀ wid n nd cn remote, ∀ r ∈ (s.update_workflow_by_id wid n nd cn remote).fst,
    ("X-N8N-API-KEY", s.api_key) ∈ r.headers) ∧
  (∀ wid remote, ∀ r ∈ (s.get_workflow_tags_by_workflow_id wid remote).fst,
    ("X-N8N-API-KEY", s.api_key) ∈ r.headers) ∧
  (∀ wid tg remote, ∀ r ∈ (s.update_workflow_tags_by_workflow_id wid tg remote).fst,
    ("X-N8N-API-KEY", s.api_key) ∈ r.headers) ∧
  (∀ wp d remote, ∀ r ∈ (s.run_workflow wp d remote).fst,
    ("X-N8N-API-KEY", s.api_key) ∈ r.headers) ∧
  (∀ n remote, ∀ r ∈ (s.create_tag n remote).fst,
    ("X-N8N-API-KEY", s.api_key) ∈ r.headers) ∧
  (∀ c remote, ∀ r ∈ (s.retrieve_tags c remote).fst,
    ("X-N8N-API-KEY", s.api_key) ∈ r.headers) ∧
  (∀ tid remote, ∀ r ∈ (s.retrieve_tag_by_id tid remote).fst,
    ("X-N8N-API-KEY", s.api_key) ∈ r.headers) ∧
  (∀ tid remote, ∀ r ∈ (s.delete_tag_by_id tid remote).fst,
    ("X-N8N-API-KEY", s.api_key) ∈ r.headers) ∧
  (∀ tid n remote, ∀ r ∈ (s.update_tag_by_id tid n remote).fst,
    ("X-N8N-API-KEY", s.api_key) ∈ r.headers)

/-! ## Theorems -/

/-- Helper: a request drawn from a singleton trace built through the client
carries the API-key header. -/
theorem mem_key_header {s : Server} {m : Method} {u : String}
    {q bd : Option Json} {r : Request} (hr : r ∈ [s.mkRequest m u q bd]) :
    ("X-N8N-API-KEY", s.api_key) ∈ r.headers := by
  rcases List.mem_singleton.mp hr with rfl
  exact List.mem_singleton.mpr rfl

/-- Claim C3: run_workflow issues exactly one request to
{base_url}/webhook/{webhook_path}: a GET with no body when data is absent,
and a POST carrying the data as JSON body when data is present. -/
theorem run_workflow_webhook_dispatch (s : Server) (webhook_path : String)
    (remote : Remote) :
    ((s.run_workflow webhook_path Option.none remote).fst =
      [s.mkRequest Method.get (s.base_url ++ "/webhook/" ++ webhook_path)
        Option.none Option.none]) ∧
    ∀ d : Json, (s.run_workflow webhook_path (some d) remote).fst =
      [s.mkRequest Method.post (s.base_url ++ "/webhook/" ++ webhook_path)
        Option.none (some d)] :=
  ⟨rfl, fun _ => rfl⟩

/-- Claim C4: when the send fails at the transport level, every tool returns
(Ok, not Err/McpError, not a panic) an error-flagged result whose single text
line is "Workflow error: " followed by the transport error's description, and
it issues exactly one request (no retry). -/
theorem transport_failure_is_textual_error (msg : String) :
    (∀ (s : Server) a st wi pi l c,
      (s.retrieve_all_executions a st wi pi l c (failRemote msg)).snd =
        ToolReturn.ok (CallToolResult.mkError ["Workflow error: " ++ msg]) ∧
      (s.retrieve_all_executions a st wi pi l c (failRemote msg)).fst.length = 1) ∧
    (∀ (s : Server) eid,
      (s.retrieve_execution_by_id eid (failRemote msg)).snd =
        ToolReturn.ok (CallToolResult.mkError ["Workflow error: " ++ msg]) ∧
      (s.retrieve_execution_by_id eid (failRemote msg)).fst.length = 1) ∧
    (∀ (s : Server) eid,
      (s.delete_execution_by_id eid (failRemote msg)).snd =
        ToolReturn.ok (CallToolResult.mkError ["Workflow error: " ++ msg]) ∧
      (s.delete_execution_by_id eid (failRemote msg)).fst.length = 1) ∧
    (∀ (s : Server) n nd cn,
      (s.create_workflow n nd cn (failRemote msg)).snd =
        ToolReturn.ok (CallToolResult.mkError ["Workflow error: " ++ msg]) ∧
      (s.create_workflow n nd cn (failRemote msg)).fst.length = 1) ∧
    (∀ (s : Server) p,
      (s.retrieve_workflows p (failRemote msg)).snd =
        ToolReturn.ok (CallToolResult.mkError ["Workflow error: " ++ msg]) ∧
      (s.retrieve_workflows p (failRemote msg)).fst.length = 1) ∧
    (∀ (s : Server) wid,
      (s.retrieve_workflow_by_id wid (failRemote msg)).snd =
        ToolReturn.ok (CallToolResult.mkError ["Workflow error: " ++ msg]) ∧
      (s.retrieve_workflow_by_id wid (failRemote msg)).fst.length = 1) ∧
    (∀ (s : Server) wid,
      (s.delete_workflow_by_id wid (failRemote msg)).snd =
        ToolReturn.ok (CallToolResult.mkError ["Workflow error: " ++ msg]) ∧
      (s.delete_workflow_by_id wid (failRemote msg)).fst.length = 1) ∧
    (∀ (s : Server) wid,
      (s.activate_workflow_by_id wid (failRemote msg)).snd =
        ToolReturn.ok (CallToolResult.mkError ["Workflow error: " ++ msg]) ∧
      (s.activate_workflow_by_id wid (failRemote msg)).fst.length = 1) ∧
    (∀ (s : Server) wid,
      (s.deactivate_workflow_by_id wid (failRemote msg)).snd =
        ToolReturn.ok (CallToolResult.mkError ["Workflow error: " ++ msg]) ∧
      (s.deactivate_workflow_by_id wid (failRemote msg)).fst.length = 1) ∧
    (∀ (s : Server) wid n nd cn,
      (s.update_workflow_by_id wid n nd cn (failRemote msg)).snd =
        ToolReturn.ok (CallToolResult.mkError ["Workflow error: " ++ msg]) ∧
      (s.update_workflow_by_id wid n nd cn (failRemote msg)).fst.length = 1) ∧
    (∀ (s : Server) wid,
      (s.get_workflow_tags_by_workflow_id wid (failRemote msg)).snd =
        ToolReturn.ok (CallToolResult.mkError ["Workflow error: " ++ msg]) ∧
      (s.get_workflow_tags_by_workflow_id wid (failRemote msg)).fst.length = 1) ∧
    (∀ (s : Server) wid tg,
      (s.update_workflow_tags_by_workflow_id wid tg (failRemote msg)).snd =
        ToolReturn.ok (CallToolResult.mkError ["Workflow error: " ++ msg]) ∧
      (s.update_workflow_tags_by_workflow_id wid tg (failRemote msg)).fst.length = 1) ∧
    (∀ (s : Server) wp d,
      (s.run_workflow wp d (failRemote msg)).snd =
        ToolReturn.ok (CallToolResult.mkError ["Workflow error: " ++ msg]) ∧
      (s.run_workflow wp d (failRemote msg)).fst.length = 1) ∧
    (∀ (s : Server) n,
      (s.create_tag n (failRemote msg)).snd =
        ToolReturn.ok (CallToolResult.mkError ["Workflow error: " ++ msg]) ∧
      (s.create_tag n (failRemote msg)).fst.length = 1) ∧
    (∀ (s : Server) c,
      (s.retrieve_tags c (failRemote msg)).snd =
        ToolReturn.ok (CallToolResult.mkError ["Workflow error: " ++ msg]) ∧
      (s.retrieve_tags c (failRemote msg)).fst.length = 1) ∧
    (∀ (s : Server) tid,
      (s.retrieve_tag_by_id tid (failRemote msg)).snd =
        ToolReturn.ok (CallToolResult.mkError ["Workflow error: " ++ msg]) ∧
      (s.retrieve_tag_by_id tid (failRemote msg)).fst.length = 1) ∧
    (∀ (s : Server) tid,
      (s.delete_tag_by_id tid (failRemote msg)).snd =
        ToolReturn.ok (CallToolResult.mkError ["Workflow error: " ++ msg]) ∧
      (s.delete_tag_by_id tid (failRemote msg)).fst.length = 1) ∧
    (∀ (s : Server) tid n,
      (s.update_tag_by_id tid n (failRemote msg)).snd =
        ToolReturn.ok (CallToolResult.mkError ["Workflow error: " ++ msg]) ∧
      (s.update_tag_by_id tid n (failRemote msg)).fst.length = 1) := by
  refine ⟨?_, ?_, ?_, ?_, ?_, ?_, ?_, ?_, ?_, ?_, ?_, ?_, ?_, ?_, ?_, ?_, ?_, ?_⟩ <;>
    (intros; exact ⟨rfl, rfl⟩)

/-- Claim C5: when the response body is not valid JSON, every tool other
than run_workflow hits the unwrap on `.json::<serde_json::Value>()` and
panics instead of returning a tool result. -/
theorem nonjson_body_panics :
    (∀ (s : Server) a st wi pi l c,
      (s.retrieve_all_executions a st wi pi l c nonJsonRemote).snd = ToolReturn.panic) ∧
    (∀ (s : Server) eid,
      (s.retrieve_execution_by_id eid nonJsonRemote).snd = ToolReturn.panic) ∧
    (∀ (s : Server) eid,
      (s.delete_execution_by_id eid nonJsonRemote).snd = ToolReturn.panic) ∧
    (∀ (s : Server) n nd cn,
      (s.create_workflow n nd cn nonJsonRemote).snd = ToolReturn.panic) ∧
    (∀ (s : Server) p,
      (s.retrieve_workflows p nonJsonRemote).snd = ToolReturn.panic) ∧
    (∀ (s : Server) wid,
      (s.retrieve_workflow_by_id wid nonJsonRemote).snd = ToolReturn.panic) ∧
    (∀ (s : Server) wid,
      (s.delete_workflow_by_id wid nonJsonRemote).snd = ToolReturn.panic) ∧
    (∀ (s : Server) wid,
      (s.activate_workflow_by_id wid nonJsonRemote).snd = ToolReturn.panic) ∧
    (∀ (s : Server) wid,
      (s.deactivate_workflow_by_id wid nonJsonRemote).snd = ToolReturn.panic) ∧
    (∀ (s : Server) wid n nd cn,
      (s.update_workflow_by_id wid n nd cn nonJsonRemote).snd = ToolReturn.panic) ∧
    (∀ (s : Server) wid,
      (s.get_workflow_tags_by_workflow_id wid nonJsonRemote).snd = ToolReturn.panic) ∧
    (∀ (s : Server) wid tg,
      (s.update_workflow_tags_by_workflow_id wid tg nonJsonRemote).snd = ToolReturn.panic) ∧
    (∀ (s : Server) n,
      (s.create_tag n nonJsonRemote).snd = ToolReturn.panic) ∧
    (∀ (s : Server) c,
      (s.retrieve_tags c nonJsonRemote).snd = ToolReturn.panic) ∧
    (∀ (s : Server) tid,
      (s.retrieve_tag_by_id tid nonJsonRemote).snd = ToolReturn.panic) ∧
    (∀ (s : Server) tid,
      (s.delete_tag_by_id tid nonJsonRemote).snd = ToolReturn.panic) ∧
    (∀ (s : Server) tid n,
      (s.update_tag_by_id tid n nonJsonRemote).snd = ToolReturn.panic) := by
  refine ⟨?_, ?_, ?_, ?_, ?_, ?_, ?_, ?_, ?_, ?_, ?_, ?_, ?_, ?_, ?_, ?_, ?_⟩ <;>
    (intros; rfl)

/-- Claim C2 (counterexample): run_workflow's success result is the fixed
text "Workflow run successful", not the remote JSON body pretty-printed, so
the claim that every tool (run_workflow included) returns the pretty-printed
response fails on run_workflow with a JSON-returning remote. -/
theorem run_workflow_success_text_not_pretty :
    (sEx.run_workflow "hook" Option.none (jsonRemote demoBody)).snd =
      ToolReturn.ok (CallToolResult.success ["Workflow run successful"]) ∧
    "Workflow run successful" ≠ to_string_pretty demoBody :=
  ⟨rfl, by decide⟩

/-- Claim C2 (amended): every tool except run_workflow turns a JSON response
body into a success result whose single text block is the body pretty-printed
(in particular the spec's worked example with workflow 42 evaluates to the
literal pretty text); run_workflow instead returns the fixed success text
"Workflow run successful" regardless of the response body. -/
theorem success_results_pretty_print_json :
    (∀ (s : Server) a st wi pi l c (v : Json),
      (s.retrieve_all_executions a st wi pi l c (jsonRemote v)).snd =
        ToolReturn.ok (CallToolResult.success [to_string_pretty v])) ∧
    (∀ (s : Server) eid (v : Json),
      (s.retrieve_execution_by_id eid (jsonRemote v)).snd =
        ToolReturn.ok (CallToolResult.success [to_string_pretty v])) ∧
    (∀ (s : Server) eid (v : Json),
      (s.delete_execution_by_id eid (jsonRemote v)).snd =
        ToolReturn.ok (CallToolResult.success [to_string_pretty v])) ∧
    (∀ (s : Server) n nd cn (v : Json),
      (s.create_workflow n nd cn (jsonRemote v)).snd =
        ToolReturn.ok (CallToolResult.success [to_string_pretty v])) ∧
    (∀ (s : Server) p (v : Json),
      (s.retrieve_workflows p (jsonRemote v)).snd =
        ToolReturn.ok (CallToolResult.success [to_string_pretty v])) ∧
    (∀ (s : Server) wid (v : Json),
      (s.retrieve_workflow_by_id wid (jsonRemote v)).snd =
        ToolReturn.ok (CallToolResult.success [to_string_pretty v])) ∧
    (∀ (s : Server) wid (v : Json),
      (s.delete_workflow_by_id wid (jsonRemote v)).snd =
        ToolReturn.ok (CallToolResult.success [to_string_pretty v])) ∧
    (∀ (s : Server) wid (v : Json),
      (s.activate_workflow_by_id wid (jsonRemote v)).snd =
        ToolReturn.ok (CallToolResult.success [to_string_pretty v])) ∧
    (∀ (s : Server) wid (v : Json),
      (s.deactivate_workflow_by_id wid (jsonRemote v)).snd =
        ToolReturn.ok (CallToolResult.success [to_string_pretty v])) ∧
    (∀ (s : Server) wid n nd cn (v : Json),
      (s.update_workflow_by_id wid n nd cn (jsonRemote v)).snd =
        ToolReturn.ok (CallToolResult.success [to_string_pretty v])) ∧
    (∀ (s : Server) wid (v : Json),
      (s.get_workflow_tags_by_workflow_id wid (jsonRemote v)).snd =
        ToolReturn.ok (CallToolResult.success [to_string_pretty v])) ∧
    (∀ (s : Server) wid tg (v : Json),
      (s.update_workflow_tags_by_workflow_id wid tg (jsonRemote v)).snd =
        ToolReturn.ok (CallToolResult.success [to_string_pretty v])) ∧
    (∀ (s : Server) n (v : Json),
      (s.create_tag n (jsonRemote v)).snd =
        ToolReturn.ok (CallToolResult.success [to_string_pretty v])) ∧
    (∀ (s : Server) c (v : Json),
      (s.retrieve_tags c (jsonRemote v)).snd =
        ToolReturn.ok (CallToolResult.success [to_string_pretty v])) ∧
    (∀ (s : Server) tid (v : Json),
      (s.retrieve_tag_by_id tid (jsonRemote v)).snd =
        ToolReturn.ok (CallToolResult.success [to_string_pretty v])) ∧
    (∀ (s : Server) tid (v : Json),
      (s.delete_tag_by_id tid (jsonRemote v)).snd =
        ToolReturn.ok (CallToolResult.success [to_string_pretty v])) ∧
    (∀ (s : Server) tid n (v : Json),
      (s.update_tag_by_id tid n (jsonRemote v)).snd =
        ToolReturn.ok (CallToolResult.success [to_string_pretty v])) ∧
    (∀ (s : Server) wp d (v : Json),
      (s.run_workflow wp d (jsonRemote v)).snd =
        ToolReturn.ok (CallToolResult.success ["Workflow run successful"])) ∧
    ((sEx.retrieve_workflow_by_id "42" (jsonRemote demoBody)).fst.map Request.url =
      ["http://n8n.local/api/v1/workflows/42"]) ∧
    ((sEx.retrieve_workflow_by_id "42" (jsonRemote demoBody)).snd =
      ToolReturn.ok (CallToolResult.success
        ["\x7b\n  \"id\": \"42\",\n  \"name\": \"demo\"\n\x7d"])) := by
  refine ⟨?_, ?_, ?_, ?_, ?_, ?_, ?_, ?_, ?_, ?_, ?_, ?_, ?_, ?_, ?_, ?_, ?_, ?_, ?_, ?_⟩
  case _ => intros; rfl
  case _ => intros; rfl
  case _ => intros; rfl
  case _ => intros; rfl
  case _ => intros; rfl
  case _ => intros; rfl
  case _ => intros; rfl
  case _ => intros; rfl
  case _ => intros; rfl
  case _ => intros; rfl
  case _ => intros; rfl
  case _ => intros; rfl
  case _ => intros; rfl
  case _ => intros; rfl
  case _ => intros; rfl
  case _ => intros; rfl
  case _ => intros; rfl
  case _ => intros; rfl
  case _ => rfl
  case _ => decide

/-- Claim C9: create_workflow and update_workflow_by_id build their JSON
bodies from the three caller-controlled arguments only; "settings" is always
the serialized WorkflowSettings::default() and "staticData" is always the
JSON string "null" (Json.str, not Json.null). -/
theorem create_update_use_default_settings (s : Server) (nm : String)
    (nodes connections : Json) (remote : Remote) :
    ((s.create_workflow nm nodes connections remote).fst.map Request.body =
      [some (Json.obj
        [ ("name", Json.str nm), ("nodes", nodes), ("connections", connections)
        , ("settings", WorkflowSettings.default.serialize)
        , ("staticData", Json.str "null") ])]) ∧
    ∀ wid,
      (s.update_workflow_by_id wid nm nodes connections remote).fst.map Request.body =
        [some (Json.obj
          [ ("name", Json.str nm), ("nodes", nodes), ("connections", connections)
          , ("settings", WorkflowSettings.default.serialize)
          , ("staticData", Json.str "null") ])] :=
  ⟨rfl, fun _ => rfl⟩

/-- Claim C10: both untagged unit-variant enums serialize every variant to
JSON null (never the wire strings "all"/"none" or "error"/"success"/
"waiting"); only AllOrNone's Display produces "all"/"none"; and a serialized
WorkflowSettings keeps snake_case field names with null under both
save_data fields. -/
theorem untagged_enums_serialize_to_null :
    (∀ v : AllOrNone, v.serialize = Json.null) ∧
    (∀ v : ExecutionStatus, v.serialize = Json.null) ∧
    (AllOrNone.All.display = "all" ∧ AllOrNone.None.display = "none") ∧
    (∀ w : WorkflowSettings, w.serialize = Json.obj
      [ ("save_execution_progress", Json.bool w.save_execution_progress)
      , ("save_manual_executions", Json.bool w.save_manual_executions)
      , ("save_data_error_execution", Json.null)
      , ("save_data_success_execution", Json.null)
      , ("execution_timeout", Json.num w.execution_timeout) ]) := by
  refine ⟨fun v => by cases v <;> rfl, fun v => by cases v <;> rfl, ⟨rfl, rfl⟩, fun w => ?_⟩
  cases h1 : w.save_data_error_execution <;> cases h2 : w.save_data_success_execution <;>
    simp [WorkflowSettings.serialize, AllOrNone.serialize, h1, h2]

/-- Claim C7: the n8n_user and n8n_password fields interfere with nothing:
two servers sharing api_key and base_url but differing arbitrarily in those
two fields run every tool to identical request traces and identical results
against any remote. -/
theorem credentials_noninterference (k b : String) (u1 p1 u2 p2 : Option String) :
    (∀ a st wi pi l c remote,
      (Server.mk k b u1 p1).retrieve_all_executions a st wi pi l c remote =
      (Server.mk k b u2 p2).retrieve_all_executions a st wi pi l c remote) ∧
    (∀ eid remote,
      (Server.mk k b u1 p1).retrieve_execution_by_id eid remote =
      (Server.mk k b u2 p2).retrieve_execution_by_id eid remote) ∧
    (∀ eid remote,
      (Server.mk k b u1 p1).delete_execution_by_id eid remote =
      (Server.mk k b u2 p2).delete_execution_by_id eid remote) ∧
    (∀ n nd cn remote,
      (Server.mk k b u1 p1).create_workflow n nd cn remote =
      (Server.mk k b u2 p2).create_workflow n nd cn remote) ∧
    (∀ p remote,
      (Server.mk k b u1 p1).retrieve_workflows p remote =
      (Server.mk k b u2 p2).retrieve_workflows p remote) ∧
    (∀ wid remote,
      (Server.mk k b u1 p1).retrieve_workflow_by_id wid remote =
      (Server.mk k b u2 p2).retrieve_workflow_by_id wid remote) ∧
    (∀ wid remote,
      (Server.mk k b u1 p1).delete_workflow_by_id wid remote =
      (Server.mk k b u2 p2).delete_workflow_by_id wid remote) ∧
    (∀ wid remote,
      (Server.mk k b u1 p1).activate_workflow_by_id wid remote =
      (Server.mk k b u2 p2).activate_workflow_by_id wid remote) ∧
    (∀ wid remote,
      (Server.mk k b u1 p1).deactivate_workflow_by_id wid remote =
      (Server.mk k b u2 p2).deactivate_workflow_by_id wid remote) ∧
    (∀ wid n nd cn remote,
      (Server.mk k b u1 p1).update_workflow_by_id wid n nd cn remote =
      (Server.mk k b u2 p2).update_workflow_by_id wid n nd cn remote) ∧
    (∀ wid remote,
      (Server.mk k b u1 p1).get_workflow_tags_by_workflow_id wid remote =
      (Server.mk k b u2 p2).get_workflow_tags_by_workflow_id wid remote) ∧
    (∀ wid tg remote,
      (Server.mk k b u1 p1).update_workflow_tags_by_workflow_id wid tg remote =
      (Server.mk k b u2 p2).update_workflow_tags_by_workflow_id wid tg remote) ∧
    (∀ wp d remote,
      (Server.mk k b u1 p1).run_workflow wp d remote =
      (Server.mk k b u2 p2).run_workflow wp d remote) ∧
    (∀ n remote,
      (Server.mk k b u1 p1).create_tag n remote =
      (Server.mk k b u2 p2).create_tag n remote) ∧
    (∀ c remote,
      (Server.mk k b u1 p1).retrieve_tags c remote =
      (Server.mk k b u2 p2).retrieve_tags c remote) ∧
    (∀ tid remote,
      (Server.mk k b u1 p1).retrieve_tag_by_id tid remote =
      (Server.mk k b u2 p2).retrieve_tag_by_id tid remote) ∧
    (∀ tid remote,
      (Server.mk k b u1 p1).delete_tag_by_id tid remote =
      (Server.mk k b u2 p2).delete_tag_by_id tid remote) ∧
    (∀ tid n remote,
      (Server.mk k b u1 p1).update_tag_by_id tid n remote =
      (Server.mk k b u2 p2).update_tag_by_id tid n remote) := by
  refine ⟨?_, ?_, ?_, ?_, ?_, ?_, ?_, ?_, ?_, ?_, ?_, ?_, ?_, ?_, ?_, ?_, ?_, ?_⟩ <;>
    (intros; rfl)

/-- Claim C6: from_env aborts (returns no Server) when N8N_API_KEY or
N8N_BASE_URL is absent; when both are present it returns the server built
from them, and every request issued by any tool of any server carries the
static X-N8N-API-KEY header with the server's API key. -/
theorem from_env_aborts_or_authenticates :
    (∀ env : Env, env "N8N_API_KEY" = Option.none →
      Server.from_env env = Option.none) ∧
    (∀ env : Env, env "N8N_BASE_URL" = Option.none →
      Server.from_env env = Option.none) ∧
    (∀ (env : Env) (k b : String),
      env "N8N_API_KEY" = some k → env "N8N_BASE_URL" = some b →
      Server.from_env env = some
        { api_key := k, base_url := b,
          n8n_user := env "N8N_USER", n8n_password := env "N8N_PASSWORD" }) ∧
    (∀ s : Server, AllRequestsCarryApiKey s) := by
  refine ⟨?_, ?_, ?_, ?_⟩
  · intro env h
    cases hb : env "N8N_BASE_URL" <;> simp [Server.from_env, h, hb]
  · intro env h
    cases hk : env "N8N_API_KEY" <;> simp [Server.from_env, h, hk]
  · intro env k b hk hb
    simp [Server.from_env, hk, hb]
  · intro s
    refine ⟨?_, ?_, ?_, ?_, ?_, ?_, ?_, ?_, ?_, ?_, ?_, ?_, ?_, ?_, ?_, ?_, ?_, ?_⟩
    all_goals first
      | (intros; rename_i hr; exact mem_key_header hr)
      | (intro wp d remote r hr
         cases d with
         | none => exact mem_key_header hr
         | some x => exact mem_key_header hr)

/-- Witness for from_env_aborts_or_authenticates at concrete environments:
a missing key or base URL aborts, a full environment yields the server. -/
theorem from_env_aborts_or_authenticates_witness :
    Server.from_env envNoKey = Option.none ∧
    Server.from_env envNoBase = Option.none ∧
    Server.from_env envFull = some
      { api_key := "test-key", base_url := "http://n8n.local",
        n8n_user := Option.none, n8n_password := Option.none } :=
  ⟨from_env_aborts_or_authenticates.1 envNoKey rfl,
   from_env_aborts_or_authenticates.2.1 envNoBase rfl,
   from_env_aborts_or_authenticates.2.2.1 envFull "test-key" "http://n8n.local" rfl rfl⟩

/-- Claim C1 (code at the failing inputs): retrieve_execution_by_id and
delete_execution_by_id address {base}/api/v1/workflows/{execution_id} — the
workflows path, not the declared /api/v1/executions/{id} template — and the
list operation retrieve_tags issues a POST, not a GET; each still issues
exactly one request. -/
theorem execution_and_tag_request_mismatch :
    ((sEx.retrieve_execution_by_id "7" (jsonRemote demoBody)).fst.map Request.url =
      ["http://n8n.local/api/v1/workflows/7"]) ∧
    ((sEx.retrieve_execution_by_id "7" (jsonRemote demoBody)).fst.map Request.url ≠
      ["http://n8n.local/api/v1/executions/7"]) ∧
    ((sEx.retrieve_execution_by_id "7" (jsonRemote demoBody)).fst.map Request.method =
      [Method.get]) ∧
    ((sEx.delete_execution_by_id "7" (jsonRemote demoBody)).fst.map Request.url =
      ["http://n8n.local/api/v1/workflows/7"]) ∧
    ((sEx.retrieve_tags (some "c") (jsonRemote demoBody)).fst.map Request.method =
      [Method.post]) ∧
    ((sEx.retrieve_tags (some "c") (jsonRemote demoBody)).fst.map Request.url =
      ["http://n8n.local/tags"]) ∧
    ((sEx.retrieve_execution_by_id "7" (jsonRemote demoBody)).fst.length = 1) ∧
    ((sEx.retrieve_tags (some "c") (jsonRemote demoBody)).fst.length = 1) :=
  ⟨rfl, by decide, rfl, rfl, rfl, rfl, rfl, rfl⟩

/-- Claim C8 (counterexample): retrieve_all_executions does not accept an
optional cursor/limit pair — cursor is a required field, so the argument
object of the spec's "cursor unset" scenario fails schema validation, while
adding the cursor makes the same object deserialize. -/
theorem executions_cursor_is_required :
    (deserializeRetrieveAllExecutionsArgs (Json.obj
      [ ("include_data", Json.bool true), ("status", Json.null)
      , ("limit", Json.num 10) ]) = Option.none) ∧
    (deserializeRetrieveAllExecutionsArgs (Json.obj
      [ ("include_data", Json.bool true), ("status", Json.null)
      , ("limit", Json.num 10), ("cursor", Json.str "") ]) =
      some { include_data := true, status := ExecutionStatus.Error,
             workflow_id := Option.none, project_id := Option.none,
             limit := 10, cursor := "" }) :=
  ⟨rfl, rfl⟩

/-- Claim C8 (amended): retrieve_workflows accepts cursor and limit as
optional fields and forwards them verbatim in its query payload;
retrieve_tags accepts only an optional cursor (no limit field) and forwards
it verbatim; retrieve_all_executions requires cursor and limit and forwards
them verbatim; each list operation issues exactly one request, with no local
aggregation across pages. -/
theorem list_operations_pagination :
    (deserializeRetrieveAllWorkflowParams (Json.obj []) =
      some { active := Option.none, tags := Option.none, name := Option.none,
             project_id := Option.none, exclude_pinned_data := Option.none,
             limit := Option.none, cursor := Option.none }) ∧
    (∀ c : String, deserializeRetrieveAllWorkflowParams
        (Json.obj [("cursor", Json.str c)]) =
      some { active := Option.none, tags := Option.none, name := Option.none,
             project_id := Option.none, exclude_pinned_data := Option.none,
             limit := Option.none, cursor := some c }) ∧
    (∀ a t n pid e (l : Nat) (c : String),
      (RetrieveAllWorkflowParams.mk a t n pid e (some l) (some c)).serialize =
        Json.obj
          [ ("active", optJson Json.bool a), ("tags", optJson Json.str t)
          , ("name", optJson Json.str n), ("project_id", optJson Json.str pid)
          , ("exclude_pinned_data", optJson Json.str e)
          , ("limit", Json.num l), ("cursor", Json.str c) ]) ∧
    (∀ (s : Server) p remote,
      (s.retrieve_workflows p remote).fst =
        [s.mkRequest Method.get (s.base_url ++ "/api/v1/workflows")
          (some p.serialize) Option.none]) ∧
    (∀ (s : Server) a st wi pi (l : Nat) (c : String) remote,
      (s.retrieve_all_executions a st wi pi l c remote).fst =
        [s.mkRequest Method.get (s.base_url ++ "/api/v1/executions")
          (some (Json.obj
            [ ("includeData", Json.bool a), ("status", st.serialize)
            , ("workflowId", optJson Json.str wi)
            , ("projectId", optJson Json.str pi)
            , ("limit", Json.num l), ("cursor", Json.str c) ]))
          Option.none]) ∧
    (deserializeRetrieveTagsArgs (Json.obj []) = some { cursor := Option.none }) ∧
    (∀ c : String, deserializeRetrieveTagsArgs (Json.obj [("cursor", Json.str c)]) =
      some { cursor := some c }) ∧
    (∀ (s : Server) c remote,
      (s.retrieve_tags c remote).fst.map Request.query =
        [some (Json.obj [("cursor", optJson Json.str c)])]) ∧
    (∀ (s : Server) p remote, (s.retrieve_workflows p remote).fst.length = 1) ∧
    (∀ (s : Server) a st wi pi l c remote,
      (s.retrieve_all_executions a st wi pi l c remote).fst.length = 1) ∧
    (∀ (s : Server) c remote, (s.retrieve_tags c remote).fst.length = 1) := by
  refine ⟨rfl, ?_, ?_, ?_, ?_, rfl, ?_, ?_, ?_, ?_, ?_⟩ <;> (intros; rfl)

end N8n
